import Mathlib

/-!
Verification of the Garmin credential/session bridge and workout-import
reconciliation flow of the coaching platform, as a shallow embedding of the
backend code (`app/services/garmin_service.py`, `app/api/athlete.py`,
`app/api/coach.py`, `app/api/garmin.py`, `app/core/security.py`).

Modelling conventions:
- Python strings become `String`; `dict` payloads become association lists
  `List (String × String)` with opaque serialized values.
- Database rows become Lean structures; the shared-workout table becomes a
  `List SharedWorkoutRec`; ORM point lookups become `List.find?`.
- The external `garminconnect` client and the `cryptography.fernet.Fernet`
  cipher are collaborators outside this repository; they are passed in as
  function parameters (the client) or as a structure bundling the cipher
  with its documented contract (Fernet).
- Python `str.lower()` is modelled on the ASCII range, which covers every
  sport-type key the classifier receives.
-/

/-- Does `needle` occur at the front of `hay`? (Char-list matching used to
model Python substring containment.) -/
def subAtFront : List Char → List Char → Bool
  | [], _ => true
  | _ :: _, [] => false
  | a :: as, b :: bs => a == b && subAtFront as bs

/-- Does `needle` occur contiguously anywhere inside `hay`? -/
def hasSub (needle : List Char) : List Char → Bool
  | [] => subAtFront needle []
  | b :: tl => subAtFront needle (b :: tl) || hasSub needle tl

/-- Python `needle in hay` on strings. -/
def strContains (hay needle : String) : Bool :=
  hasSub needle.data hay.data

/-- ASCII lowercase of one character, modelling Python `str.lower()` on the
ASCII range. -/
def asciiLowerChar (c : Char) : Char :=
  if 65 ≤ c.toNat ∧ c.toNat ≤ 90 then Char.ofNat (c.toNat + 32) else c

/-- ASCII lowercase of a string. -/
def asciiLower (s : String) : String :=
  ⟨s.data.map asciiLowerChar⟩

/-- The workout-type classifier of `GarminService.get_workouts`
(garmin_service.py lines 58-73): lowercase the raw sport key, then the
first matching branch wins, default `"other"`. -/
def classify (sportKey : String) : String :=
  let k := asciiLower sportKey
  if strContains k "running" || strContains k "run" then "running"
  else if strContains k "cycling" || strContains k "bik" then "cycling"
  else if strContains k "swim" then "swimming"
  else if strContains k "strength" || strContains k "cardio" then "strength"
  else "other"

/-- The amended C1 policy, written from the spec words with the cycling
trigger corrected from contains-"cyc" to contains-"cycling": first match
wins over contains "run" → running; contains "cycling"/"bik" → cycling;
contains "swim" → swimming; contains "strength"/"cardio" → strength;
otherwise other; case-insensitive. -/
def classifyAmendedSpec (sportKey : String) : String :=
  let k := asciiLower sportKey
  if strContains k "run" then "running"
  else if strContains k "cycling" || strContains k "bik" then "cycling"
  else if strContains k "swim" then "swimming"
  else if strContains k "strength" || strContains k "cardio" then "strength"
  else "other"

/-- A workout payload dict: string keys with opaque serialized values. -/
abbrev Payload := List (String × String)

/-- Outcome of the remote garminconnect call sequence performed inside the
try-block of `GarminService.import_workout` (login plus `save_workout`):
either the `save_workout` return value, or one of the three exception
classes caught by the service. -/
inductive GarminCall (α : Type) where
  | ok (a : α)
  | authError
  | connError
  | otherError (msg : String)
deriving DecidableEq

/-- The field-stripping step of `GarminService.import_workout`
(garmin_service.py 124-128): copy the dict and pop the four remote-identity
keys, keeping every other pair in order. -/
def stripIdentityFields (p : Payload) : Payload :=
  p.filter (fun kv => kv.1 != "workoutId" && kv.1 != "ownerId" &&
    kv.1 != "createdDate" && kv.1 != "updatedDate")

/-- Python `str(result.get("workoutId", ""))` on a dict-shaped save result. -/
def workoutIdOfResult (d : Payload) : String :=
  (d.lookup "workoutId").getD ""

/-- Fixed message of the `GarminConnectAuthenticationError` branch of
`GarminService.import_workout`. -/
def authFailMessage : String :=
  "Authentication failed for athlete\x27s Garmin account. The athlete needs to re-enter their Garmin credentials."

/-- Fixed message of the `GarminConnectConnectionError` branch of
`GarminService.import_workout`. -/
def connFailMessage : String :=
  "Could not connect to Garmin Connect. Please try again in a few minutes."

/-- Model of `GarminService.import_workout` (garmin_service.py 107-149) with the
remote client abstracted: strip the four identity fields, hand the result
to the remote save, and map the outcome to the `(success, message, new_id)`
triple; each caught exception class yields its fixed failure message. -/
def importWorkoutService (client : Payload → GarminCall (Option Payload))
    (workout_data : Payload) : Bool × String × Option String :=
  match client (stripIdentityFields workout_data) with
  | .ok result =>
    let new_id : Option String :=
      match result with
      | some d => some (workoutIdOfResult d)
      | none => none
    (true, "Workout imported successfully to Garmin Connect", new_id)
  | .authError => (false, authFailMessage, none)
  | .connError => (false, connFailMessage, none)
  | .otherError e => (false, "Error importing workout: " ++ e, none)

/-- One row of the shared-workout table, denormalised with the name and
serialized payload of the referenced workout (the reconciler loads the row
with its workout eagerly joined). -/
structure SharedWorkoutRec where
  id : Nat
  coach_id : Nat
  athlete_id : Nat
  workout_id : Nat
  status : String
  imported_at : Option Nat
  garmin_import_id : Option String
  import_error : Option String
  workout_name : String
  workout_data : String
deriving DecidableEq

/-- One element of the response list of the import endpoint. -/
structure ImportWorkoutResult where
  shared_workout_id : Nat
  success : Bool
  message : String
  garmin_import_id : Option String
deriving DecidableEq

/-- One row of the garmin-credentials table. -/
structure GarminCredRec where
  user_id : Nat
  garmin_email_encrypted : String
  garmin_password_encrypted : String
  is_connected : Bool
  connection_error : Option String
  last_sync : Option Nat
deriving DecidableEq

/-- Write the mutated row back: the ORM row object is updated in place, so
the table keeps every other row and replaces the row with this id. -/
def updateRec (db : List SharedWorkoutRec) (r : SharedWorkoutRec) :
    List SharedWorkoutRec :=
  db.map (fun x => if x.id == r.id then r else x)

/-- The per-item body of the import loop of the athlete import endpoint
(athlete.py 123-186). `parse` models `json.loads` on the cached payload
(`none` = `JSONDecodeError`); `service` models the awaited
`GarminService.import_workout` call on the stored encrypted credentials. -/
def importOneWorkout (parse : String → Option Payload)
    (service : String → String → Payload → Bool × String × Option String)
    (now : Nat) (athleteId : Nat) (ee ep : String)
    (db : List SharedWorkoutRec) (swId : Nat) :
    List SharedWorkoutRec × ImportWorkoutResult :=
  match db.find? (fun r => r.id == swId && r.athlete_id == athleteId) with
  | none =>
    (db, ⟨swId, false, "Shared workout not found or does not belong to you", none⟩)
  | some shared =>
    if shared.status == "imported" then
      (db, ⟨swId, false, "This workout has already been imported", none⟩)
    else
      match parse shared.workout_data with
      | none =>
        (updateRec db { shared with
            status := "failed"
            import_error := some "Corrupted workout data" },
         ⟨swId, false, "Workout data is corrupted. Ask your coach to re-share this workout.", none⟩)
      | some workout_data =>
        match service ee ep workout_data with
        | (true, _, garmin_id) =>
          (updateRec db { shared with
              status := "imported"
              imported_at := some now
              garmin_import_id := garmin_id },
           ⟨swId, true, "\x27" ++ shared.workout_name ++ "\x27 imported successfully to your Garmin account", garmin_id⟩)
        | (false, message, _) =>
          (updateRec db { shared with
              status := "failed"
              import_error := some message },
           ⟨swId, false, message, none⟩)

/-- Message of the up-front credential gate of the import endpoint. -/
def credsGateMessage : String :=
  "Please connect your Garmin account first (Settings > Garmin Connect)"

/-- The athlete import endpoint `import_workouts` (athlete.py 104-188):
reject up front when no connected credential record exists, then fold the
per-item body over the requested ids, threading the table and collecting
one result per id. -/
def import_workouts (parse : String → Option Payload)
    (service : String → String → Payload → Bool × String × Option String)
    (now : Nat) (athleteId : Nat) (creds : Option GarminCredRec)
    (db : List SharedWorkoutRec) (ids : List Nat) :
    Except String (List SharedWorkoutRec × List ImportWorkoutResult) :=
  match creds with
  | none => .error credsGateMessage
  | some c =>
    if c.is_connected = false then .error credsGateMessage
    else .ok (ids.foldl (fun acc swId =>
      let step := importOneWorkout parse service now athleteId
        c.garmin_email_encrypted c.garmin_password_encrypted acc.1 swId
      (step.1, acc.2 ++ [step.2])) (db, ([] : List ImportWorkoutResult)))

/-- The remove endpoint `remove_shared_workout` (athlete.py 191-210): look
the row up scoped to the caller, 404 when absent, else set status
`removed`. -/
def remove_shared_workout (athleteId : Nat) (db : List SharedWorkoutRec)
    (swId : Nat) : Except String (List SharedWorkoutRec) :=
  match db.find? (fun r => r.id == swId && r.athlete_id == athleteId) with
  | none => .error "Shared workout not found"
  | some shared => .ok (updateRec db { shared with status := "removed" })

/-- Demo row for the C2 counterexample: a shared workout the athlete has
already removed. -/
def c2DemoRec : SharedWorkoutRec :=
  ⟨1, 10, 20, 5, "removed", none, none, none, "Hill Repeats", "payload-json"⟩

/-- Demo connected credential row for the C2 counterexample. -/
def c2DemoCreds : GarminCredRec := ⟨20, "enc-email", "enc-pass", true, none, none⟩

/-- Demo parser for the C2 counterexample: the cached payload parses. -/
def c2DemoParse : String → Option Payload := fun _ => some [("workoutName", "Hill Repeats")]

/-- Demo service for the C2 counterexample: the remote upload succeeds with
new external id "999". -/
def c2DemoService : String → String → Payload → Bool × String × Option String :=
  fun _ _ _ => (true, "Workout imported successfully to Garmin Connect", some "999")

/-- One row of the cached-workout table (the fields the share endpoint
reads). -/
structure WorkoutRec where
  id : Nat
  garmin_workout_id : String
  coach_id : Nat
  workout_name : String
  workout_data : String
deriving DecidableEq

/-- The row created by the share endpoint: status `pending`, no import
data yet, joined workout fields from the found workout. -/
def newSharedRec (freshId coachId athleteId : Nat) (w : WorkoutRec) : SharedWorkoutRec :=
  { id := freshId
    coach_id := coachId
    athlete_id := athleteId
    workout_id := w.id
    status := "pending"
    imported_at := none
    garmin_import_id := none
    import_error := none
    workout_name := w.workout_name
    workout_data := w.workout_data }

/-- The per-item body of the share loop of
`share_workouts_with_athlete` (coach.py 320-352): find the coach's cached
workout, reject with a per-item error when an active (`pending` or
`imported`) share for the (workout, athlete) pair exists, else create a
new `pending` share. Returns the share table and the per-item error, if
any. -/
def shareOneWorkout (workouts : List WorkoutRec) (shares : List SharedWorkoutRec)
    (coachId athleteId : Nat) (gwId : String) (freshId : Nat) :
    List SharedWorkoutRec × Option String :=
  match workouts.find? (fun x => x.garmin_workout_id == gwId && x.coach_id == coachId) with
  | none => (shares, some ("Workout " ++ gwId ++ " not found. Refresh your workout list first."))
  | some workout =>
    match shares.find? (fun s => s.workout_id == workout.id && s.athlete_id == athleteId &&
        (s.status == "pending" || s.status == "imported")) with
    | some _ =>
      (shares, some ("Workout \x27" ++ workout.workout_name ++ "\x27 already shared with this athlete"))
    | none => (shares ++ [newSharedRec freshId coachId athleteId workout], none)

/-- The key predicate of the stripping step: true on the keys that are
kept. -/
def stripPred : String → Bool := fun a =>
  a != "workoutId" && a != "ownerId" && a != "createdDate" && a != "updatedDate"

/-- UTF-8 encoding of one character, as Python `str.encode()` produces. -/
def utf8EncodeChar (c : Char) : List Nat :=
  let n := c.toNat
  if n < 0x80 then [n]
  else if n < 0x800 then
    [0xC0 ||| (n >>> 6), 0x80 ||| (n &&& 0x3F)]
  else if n < 0x10000 then
    [0xE0 ||| (n >>> 12), 0x80 ||| ((n >>> 6) &&& 0x3F), 0x80 ||| (n &&& 0x3F)]
  else
    [0xF0 ||| (n >>> 18), 0x80 ||| ((n >>> 12) &&& 0x3F),
     0x80 ||| ((n >>> 6) &&& 0x3F), 0x80 ||| (n &&& 0x3F)]

/-- UTF-8 encoding of a string as a byte list (each entry < 256). -/
def utf8Encode (s : String) : List Nat :=
  (s.data.map utf8EncodeChar).flatten

/-- The step `key.encode()[:32].ljust(32, b"\x00")` of `_get_fernet`
(security.py 15-19): truncate the secret to 32 bytes and right-pad with
zero bytes to exactly the cipher key length. -/
def padKey32 (bs : List Nat) : List Nat :=
  bs.take 32 ++ List.replicate (32 - (bs.take 32).length) 0

/-- The url-safe base64 alphabet. -/
def b64urlTable : List Char :=
  "ABCDEFGHIJKLMNOPQRSTUVWXYZabcdefghijklmnopqrstuvwxyz0123456789-_".data

/-- One base64 digit. -/
def b64Char (n : Nat) : Char := b64urlTable.getD n '?'

/-- Model of `base64.urlsafe_b64encode` on a byte list. -/
def b64urlEncode : List Nat → List Char
  | [] => []
  | [a] => [b64Char (a >>> 2), b64Char ((a &&& 3) <<< 4), '=', '=']
  | [a, b] => [b64Char (a >>> 2), b64Char (((a &&& 3) <<< 4) ||| (b >>> 4)),
               b64Char ((b &&& 15) <<< 2), '=']
  | a :: b :: c :: rest =>
    b64Char (a >>> 2) :: b64Char (((a &&& 3) <<< 4) ||| (b >>> 4)) ::
    b64Char (((b &&& 15) <<< 2) ||| (c >>> 6)) :: b64Char (c &&& 63) :: b64urlEncode rest

/-- The Fernet key `_get_fernet` derives from the configured secret:
url-safe base64 of the truncated/zero-padded 32-byte secret. -/
def deriveFernetKey (secret : String) : String :=
  ⟨b64urlEncode (padKey32 (utf8Encode secret))⟩

/-- The external Fernet cipher (`cryptography.fernet.Fernet`), a
collaborator outside this repository, bundled with its documented
contract: decrypting under the key that encrypted returns the plaintext. -/
structure FernetCipher where
  encrypt : String → String → String
  decrypt : String → String → Option String
  roundtrip : ∀ key m, decrypt key (encrypt key m) = some m

/-- Model of `encrypt_value` (security.py 22-24): encrypt under the single
server-wide key derived from the configured secret. -/
def encrypt_value (c : FernetCipher) (settingsKey : String) (plain : String) : String :=
  c.encrypt (deriveFernetKey settingsKey) plain

/-- Model of `decrypt_value` (security.py 27-29): decrypt under the same derived
key; `none` models a raised decryption error. -/
def decrypt_value (c : FernetCipher) (settingsKey : String) (token : String) : Option String :=
  c.decrypt (deriveFernetKey settingsKey) token

/-- Update-or-insert of the user's credential row, as the connect endpoint
does it (mutate the row found for the user, else add a new row). -/
def upsertCred (store : List GarminCredRec) (uid : Nat) (nr : GarminCredRec) :
    List GarminCredRec :=
  match store.find? (fun r => r.user_id == uid) with
  | some _ => store.map (fun r => if r.user_id == uid then nr else r)
  | none => store ++ [nr]

/-- The connect endpoint `connect_garmin_account` (garmin.py 17-83):
encrypt the submitted credentials, verify connectivity, then — regardless
of the verification outcome — write the (new or replaced) credential row,
and only afterwards answer the caller, with an error when verification
failed. -/
def connect_garmin_account (c : FernetCipher) (settingsKey : String)
    (test : String → String → Bool × String) (now userId : Nat)
    (store : List GarminCredRec) (email password : String) :
    List GarminCredRec × Except String String :=
  let encrypted_email := encrypt_value c settingsKey email
  let encrypted_password := encrypt_value c settingsKey password
  let t := test encrypted_email encrypted_password
  let nr : GarminCredRec :=
    { user_id := userId
      garmin_email_encrypted := encrypted_email
      garmin_password_encrypted := encrypted_password
      is_connected := t.1
      connection_error := if t.1 then none else some t.2
      last_sync := if t.1 then some now else none }
  let store2 := upsertCred store userId nr
  if t.1 then (store2, .ok t.2) else (store2, .error t.2)

/-- A trivial cipher satisfying the Fernet contract, for concrete
instantiation. -/
def demoCipher : FernetCipher :=
  ⟨fun _ m => m, fun _ t => some t, fun _ _ => rfl⟩

theorem subAtFront_left (xs ys l : List Char) (h : subAtFront (xs ++ ys) l = true) :
    subAtFront xs l = true := by
  induction xs generalizing l with
  | nil => rfl
  | cons a as ih =>
    cases l with
    | nil => simp [subAtFront] at h
    | cons b bs =>
      simp only [List.cons_append, subAtFront, Bool.and_eq_true] at h ⊢
      exact ⟨h.1, ih bs h.2⟩

theorem hasSub_left (xs ys l : List Char) (h : hasSub (xs ++ ys) l = true) :
    hasSub xs l = true := by
  induction l with
  | nil => exact subAtFront_left xs ys [] h
  | cons b tl ih =>
    simp only [hasSub, Bool.or_eq_true] at h ⊢
    cases h with
    | inl h => exact Or.inl (subAtFront_left _ _ _ h)
    | inr h => exact Or.inr (ih h)

theorem strContains_run_of_running (k : String)
    (h : strContains k "running" = true) : strContains k "run" = true := by
  have e : "running".data = "run".data ++ "ning".data := by decide
  unfold strContains at h ⊢
  rw [e] at h
  exact hasSub_left _ _ _ h

theorem classify_eq_amendedSpec (k : String) : classify k = classifyAmendedSpec k := by
  unfold classify classifyAmendedSpec
  cases h : strContains (asciiLower k) "run" with
  | true => simp [h]
  | false =>
    have h2 : strContains (asciiLower k) "running" = false := by
      cases h3 : strContains (asciiLower k) "running"
      · rfl
      · rw [strContains_run_of_running _ h3] at h; exact h
    simp [h, h2]

/-- Claim C1 (amended): the classifier is deterministic, case-insensitive,
first-match-wins substring matching in the fixed priority order
run → running; cycling/bik → cycling; swim → swimming; strength/cardio →
strength; otherwise other — and the four example keys classify as stated. -/
theorem c1_classify_matches_amended_policy :
    (∀ k : String, classify k = classifyAmendedSpec k) ∧
    classify "Running" = "running" ∧
    classify "TRAIL_RUNNING" = "running" ∧
    classify "cardio_training" = "strength" ∧
    classify "unknown_sport" = "other" :=
  ⟨classify_eq_amendedSpec, by decide, by decide, by decide, by decide⟩

/-- Claim C1 counterexample: the key "cyc_cardio" contains both "cyc" and
"cardio", so the claimed priority order would make it cycling; the code
matches "cycling"/"bik" (not "cyc"), so it falls through to strength. -/
theorem c1_cyc_cardio_counterexample :
    classify "cyc_cardio" = "strength" ∧
    classify "cyc_cardio" ≠ "cycling" ∧
    strContains "cyc_cardio" "cyc" = true ∧
    strContains "cyc_cardio" "cardio" = true := by
  refine ⟨by decide, by decide, by decide, by decide⟩

theorem import_workouts_singleton (parse : String → Option Payload)
    (service : String → String → Payload → Bool × String × Option String)
    (now athleteId : Nat) (c : GarminCredRec) (db : List SharedWorkoutRec)
    (swId : Nat) (hConn : c.is_connected = true) :
    import_workouts parse service now athleteId (some c) db [swId] =
      .ok ((importOneWorkout parse service now athleteId
              c.garmin_email_encrypted c.garmin_password_encrypted db swId).1,
           [(importOneWorkout parse service now athleteId
              c.garmin_email_encrypted c.garmin_password_encrypted db swId).2]) := by
  unfold import_workouts
  simp [hConn]

/-- Claim C4: importing a shared workout whose status is already `imported`
is an idempotent no-op. For every remote service behaviour and parser, the
endpoint returns the already-imported result and leaves the table — hence
every field of the record, in particular `garmin_import_id` — unchanged;
quantifying over `service` shows no re-upload can influence the outcome. -/
theorem c4_already_imported_noop (parse : String → Option Payload)
    (service : String → String → Payload → Bool × String × Option String)
    (now athleteId : Nat) (c : GarminCredRec) (db : List SharedWorkoutRec)
    (swId : Nat) (shared : SharedWorkoutRec)
    (hConn : c.is_connected = true)
    (hFind : db.find? (fun r => r.id == swId && r.athlete_id == athleteId) = some shared)
    (hStatus : shared.status = "imported") :
    import_workouts parse service now athleteId (some c) db [swId] =
      .ok (db, [⟨swId, false, "This workout has already been imported", none⟩]) := by
  rw [import_workouts_singleton parse service now athleteId c db swId hConn]
  unfold importOneWorkout
  rw [hFind]
  simp [hStatus]

/-- Claim C4 witness. -/
theorem c4_already_imported_noop_witness :
    import_workouts (fun _ => none) (fun _ _ _ => (true, "", none)) 0 20
      (some ⟨20, "ee", "ep", true, none, none⟩)
      [⟨1, 10, 20, 5, "imported", some 3, some "777", none, "W", "d"⟩] [1] =
      .ok ([⟨1, 10, 20, 5, "imported", some 3, some "777", none, "W", "d"⟩],
           [⟨1, false, "This workout has already been imported", none⟩]) :=
  c4_already_imported_noop (fun _ => none) (fun _ _ _ => (true, "", none)) 0 20
    ⟨20, "ee", "ep", true, none, none⟩
    [⟨1, 10, 20, 5, "imported", some 3, some "777", none, "W", "d"⟩] 1
    ⟨1, 10, 20, 5, "imported", some 3, some "777", none, "W", "d"⟩
    rfl rfl rfl

/-- Claim C5: when the cached payload fails to deserialize, the item gets
the corrupted-data result, the record moves to `failed` with the corruption
reason recorded as its import error, its `garmin_import_id` field is left
untouched (so a null stays null), and — since the conclusion holds for
every `service` — the remote service is never contacted for the item. -/
theorem c5_corrupted_payload_fails (parse : String → Option Payload)
    (service : String → String → Payload → Bool × String × Option String)
    (now athleteId : Nat) (c : GarminCredRec) (db : List SharedWorkoutRec)
    (swId : Nat) (shared : SharedWorkoutRec)
    (hConn : c.is_connected = true)
    (hFind : db.find? (fun r => r.id == swId && r.athlete_id == athleteId) = some shared)
    (hStatus : shared.status ≠ "imported")
    (hParse : parse shared.workout_data = none) :
    import_workouts parse service now athleteId (some c) db [swId] =
      .ok (updateRec db { shared with
             status := "failed", import_error := some "Corrupted workout data" },
           [⟨swId, false, "Workout data is corrupted. Ask your coach to re-share this workout.", none⟩]) ∧
    ({ shared with status := "failed", import_error := some "Corrupted workout data"
       : SharedWorkoutRec }).garmin_import_id = shared.garmin_import_id := by
  refine ⟨?_, rfl⟩
  rw [import_workouts_singleton parse service now athleteId c db swId hConn]
  unfold importOneWorkout
  rw [hFind]
  simp [hStatus, hParse]

/-- Claim C5 witness. -/
theorem c5_corrupted_payload_fails_witness :
    import_workouts (fun _ => none) (fun _ _ _ => (true, "", none)) 0 20
      (some ⟨20, "ee", "ep", true, none, none⟩)
      [⟨1, 10, 20, 5, "pending", none, none, none, "W", "not-json"⟩] [1] =
      .ok ([⟨1, 10, 20, 5, "failed", none, none, some "Corrupted workout data", "W", "not-json"⟩],
           [⟨1, false, "Workout data is corrupted. Ask your coach to re-share this workout.", none⟩]) ∧
    (⟨1, 10, 20, 5, "failed", none, none, some "Corrupted workout data", "W", "not-json"⟩
      : SharedWorkoutRec).garmin_import_id = none :=
  c5_corrupted_payload_fails (fun _ => none) (fun _ _ _ => (true, "", none)) 0 20
    ⟨20, "ee", "ep", true, none, none⟩
    [⟨1, 10, 20, 5, "pending", none, none, none, "W", "not-json"⟩] 1
    ⟨1, 10, 20, 5, "pending", none, none, none, "W", "not-json"⟩
    rfl rfl (by decide) rfl

/-- Claim C6: when no shared-workout record with the requested id belongs
to the calling athlete — the id is absent or the record is another
athlete's — the item gets the not-found result and the table is returned
unchanged, so no record changes state; the lookup predicate is scoped to
the caller's athlete id. -/
theorem c6_not_found_no_state_change (parse : String → Option Payload)
    (service : String → String → Payload → Bool × String × Option String)
    (now athleteId : Nat) (c : GarminCredRec) (db : List SharedWorkoutRec)
    (swId : Nat)
    (hConn : c.is_connected = true)
    (hAbsent : ∀ r ∈ db, ¬(r.id = swId ∧ r.athlete_id = athleteId)) :
    import_workouts parse service now athleteId (some c) db [swId] =
      .ok (db, [⟨swId, false, "Shared workout not found or does not belong to you", none⟩]) := by
  have hFind : db.find? (fun r => r.id == swId && r.athlete_id == athleteId) = none := by
    rw [List.find?_eq_none]
    intro x hx hpx
    simp only [Bool.and_eq_true, beq_iff_eq] at hpx
    exact hAbsent x hx hpx
  rw [import_workouts_singleton parse service now athleteId c db swId hConn]
  unfold importOneWorkout
  rw [hFind]

/-- Claim C6 witness: a record that exists but belongs to athlete 21, while
athlete 20 calls. -/
theorem c6_not_found_no_state_change_witness :
    import_workouts (fun _ => none) (fun _ _ _ => (true, "", none)) 0 20
      (some ⟨20, "ee", "ep", true, none, none⟩)
      [⟨1, 10, 21, 5, "pending", none, none, none, "W", "d"⟩] [1] =
      .ok ([⟨1, 10, 21, 5, "pending", none, none, none, "W", "d"⟩],
           [⟨1, false, "Shared workout not found or does not belong to you", none⟩]) :=
  c6_not_found_no_state_change (fun _ => none) (fun _ _ _ => (true, "", none)) 0 20
    ⟨20, "ee", "ep", true, none, none⟩
    [⟨1, 10, 21, 5, "pending", none, none, none, "W", "d"⟩] 1
    rfl (by decide)

/-- Claim C3: an adapter failure during import is mapped to the
corresponding per-item failure result and the record moves to `failed`
with the adapter reason text stored verbatim as its import error; the
three exception classes of the service each map to their corresponding
failure triple. -/
theorem c3_adapter_failure_recorded (parse : String → Option Payload)
    (service : String → String → Payload → Bool × String × Option String)
    (now athleteId : Nat) (c : GarminCredRec) (db : List SharedWorkoutRec)
    (swId : Nat) (shared : SharedWorkoutRec) (wd : Payload)
    (reason : String) (gid : Option String)
    (hConn : c.is_connected = true)
    (hFind : db.find? (fun r => r.id == swId && r.athlete_id == athleteId) = some shared)
    (hStatus : shared.status ≠ "imported")
    (hParse : parse shared.workout_data = some wd)
    (hService : service c.garmin_email_encrypted c.garmin_password_encrypted wd
      = (false, reason, gid)) :
    import_workouts parse service now athleteId (some c) db [swId] =
      .ok (updateRec db { shared with status := "failed", import_error := some reason },
           [⟨swId, false, reason, none⟩]) ∧
    (∀ wd2 : Payload, importWorkoutService (fun _ => GarminCall.authError) wd2
      = (false, authFailMessage, none)) ∧
    (∀ wd2 : Payload, importWorkoutService (fun _ => GarminCall.connError) wd2
      = (false, connFailMessage, none)) ∧
    (∀ (wd2 : Payload) (e : String), importWorkoutService (fun _ => GarminCall.otherError e) wd2
      = (false, "Error importing workout: " ++ e, none)) := by
  refine ⟨?_, fun _ => rfl, fun _ => rfl, fun _ _ => rfl⟩
  rw [import_workouts_singleton parse service now athleteId c db swId hConn]
  unfold importOneWorkout
  rw [hFind]
  simp [hStatus, hParse, hService]

/-- Claim C3 witness: the adapter reports an authentication failure with
reason "bad password"; the record ends `failed` with import_error
"bad password". -/
theorem c3_adapter_failure_recorded_witness :
    import_workouts (fun _ => some [("step", "1")])
      (fun _ _ _ => (false, "bad password", none)) 0 20
      (some ⟨20, "ee", "ep", true, none, none⟩)
      [⟨1, 10, 20, 5, "pending", none, none, none, "W", "d"⟩] [1] =
      .ok ([⟨1, 10, 20, 5, "failed", none, none, some "bad password", "W", "d"⟩],
           [⟨1, false, "bad password", none⟩]) ∧
    (∀ wd2 : Payload, importWorkoutService (fun _ => GarminCall.authError) wd2
      = (false, authFailMessage, none)) ∧
    (∀ wd2 : Payload, importWorkoutService (fun _ => GarminCall.connError) wd2
      = (false, connFailMessage, none)) ∧
    (∀ (wd2 : Payload) (e : String), importWorkoutService (fun _ => GarminCall.otherError e) wd2
      = (false, "Error importing workout: " ++ e, none)) :=
  c3_adapter_failure_recorded (fun _ => some [("step", "1")])
    (fun _ _ _ => (false, "bad password", none)) 0 20
    ⟨20, "ee", "ep", true, none, none⟩
    [⟨1, 10, 20, 5, "pending", none, none, none, "W", "d"⟩] 1
    ⟨1, 10, 20, 5, "pending", none, none, none, "W", "d"⟩
    [("step", "1")] "bad password" none
    rfl rfl (by decide) rfl rfl

/-- Claim C2 counterexample: the import endpoint guards only the status
`imported`, so invoking it on a `removed` record belonging to the caller
re-attempts the import and moves the record to `imported` — `removed` is
not terminal. -/
theorem c2_removed_reimported_counterexample :
    c2DemoRec.status = "removed" ∧
    import_workouts c2DemoParse c2DemoService 7 20 (some c2DemoCreds) [c2DemoRec] [1] =
      .ok ([{ c2DemoRec with status := "imported", imported_at := some 7, garmin_import_id := some "999" }],
           [⟨1, true, "\x27Hill Repeats\x27 imported successfully to your Garmin account", some "999"⟩]) ∧
    ({ c2DemoRec with status := "imported", imported_at := some 7, garmin_import_id := some "999"
       : SharedWorkoutRec }).status ≠ "removed" :=
  ⟨rfl, rfl, by decide⟩

/-- Claim C2 (amended): `removed` is not guarded by the import endpoint —
its only status guard is `imported`. A removed record belonging to the
caller is re-attempted exactly as the same record in status `pending`
would be (so it can move to `imported` or `failed`), while the removal
endpoint itself keeps a removed record removed. -/
theorem c2_removed_treated_as_pending (parse : String → Option Payload)
    (service : String → String → Payload → Bool × String × Option String)
    (now athleteId : Nat) (ee ep : String) (shared : SharedWorkoutRec)
    (hAth : shared.athlete_id = athleteId)
    (hStatus : shared.status = "removed") :
    importOneWorkout parse service now athleteId ee ep [shared] shared.id =
      importOneWorkout parse service now athleteId ee ep
        [{ shared with status := "pending" }] shared.id ∧
    remove_shared_workout athleteId [shared] shared.id = .ok [shared] := by
  obtain ⟨i, cid, aid, wid, st, ia, gid, ie, wn, wdata⟩ := shared
  simp only at hAth hStatus
  subst hAth hStatus
  constructor
  · unfold importOneWorkout
    simp only [List.find?_cons_of_pos, beq_self_eq_true, Bool.and_eq_true, and_self,
      beq_iff_eq, Bool.and_self]
    cases hp : parse wdata with
    | none => simp [updateRec]
    | some wd =>
      rcases hs : service ee ep wd with ⟨b, m, g⟩
      cases b <;> simp [hs, updateRec]
  · unfold remove_shared_workout
    simp only [List.find?_cons_of_pos, beq_self_eq_true, Bool.and_self]
    simp [updateRec]

/-- Claim C2 amended-claim witness. -/
theorem c2_removed_treated_as_pending_witness :
    importOneWorkout (fun _ => some []) (fun _ _ _ => (true, "", some "9")) 3 20 "e" "p"
      [⟨1, 10, 20, 5, "removed", none, none, none, "W", "d"⟩] 1 =
      importOneWorkout (fun _ => some []) (fun _ _ _ => (true, "", some "9")) 3 20 "e" "p"
        [⟨1, 10, 20, 5, "pending", none, none, none, "W", "d"⟩] 1 ∧
    remove_shared_workout 20 [⟨1, 10, 20, 5, "removed", none, none, none, "W", "d"⟩] 1 =
      .ok [⟨1, 10, 20, 5, "removed", none, none, none, "W", "d"⟩] :=
  c2_removed_treated_as_pending (fun _ => some []) (fun _ _ _ => (true, "", some "9")) 3 20 "e" "p"
    ⟨1, 10, 20, 5, "removed", none, none, none, "W", "d"⟩ rfl rfl

theorem lookup_filterKeys (q : String → Bool) (wd : Payload) (k : String) :
    (wd.filter (fun kv => q kv.1)).lookup k = if q k then wd.lookup k else none := by
  induction wd with
  | nil => simp
  | cons ha tl ih =>
    obtain ⟨a1, a2⟩ := ha
    by_cases hq : q a1
    · by_cases hk : k = a1
      · subst hk; simp [List.filter_cons, hq, List.lookup]
      · have hbk : (k == a1) = false := by simp [hk]
        simp [List.filter_cons, hq, List.lookup, hbk, ih]
    · by_cases hk : k = a1
      · subst hk
        simp [List.filter_cons, hq, ih]
      · have hbk : (k == a1) = false := by simp [hk]
        simp [List.filter_cons, hq, List.lookup, hbk, ih]

/-- Claim C9: the pre-upload stripping removes exactly the four identity
fields — `workoutId`, `ownerId`, `createdDate`, `updatedDate` — from the
cached payload: lookups of those four keys become absent, lookups of every
other key are unchanged, and every pair passed on to the remote upload is
a pair of the original payload. -/
theorem c9_strips_exactly_four_fields (wd : Payload) (k : String) :
    ((k = "workoutId" ∨ k = "ownerId" ∨ k = "createdDate" ∨ k = "updatedDate") →
      (stripIdentityFields wd).lookup k = none) ∧
    (k ≠ "workoutId" → k ≠ "ownerId" → k ≠ "createdDate" → k ≠ "updatedDate" →
      (stripIdentityFields wd).lookup k = wd.lookup k) ∧
    (∀ e ∈ stripIdentityFields wd, e ∈ wd) := by
  have hq : stripIdentityFields wd = wd.filter (fun kv => stripPred kv.1) := rfl
  refine ⟨?_, ?_, ?_⟩
  · intro hk
    rw [hq, lookup_filterKeys stripPred wd k]
    rcases hk with h | h | h | h <;> subst h <;> simp [stripPred]
  · intro h1 h2 h3 h4
    rw [hq, lookup_filterKeys stripPred wd k]
    simp [stripPred, h1, h2, h3, h4]
  · intro e he
    exact List.mem_of_mem_filter he

/-- Claim C9 witness. -/
theorem c9_strips_exactly_four_fields_witness :
    (stripIdentityFields [("workoutId", "1"), ("ownerId", "2"), ("steps", "x")]).lookup "workoutId"
      = none ∧
    (stripIdentityFields [("workoutId", "1"), ("ownerId", "2"), ("steps", "x")]).lookup "steps"
      = ([("workoutId", "1"), ("ownerId", "2"), ("steps", "x")] : Payload).lookup "steps" :=
  ⟨(c9_strips_exactly_four_fields [("workoutId", "1"), ("ownerId", "2"), ("steps", "x")]
      "workoutId").1 (Or.inl rfl),
   (c9_strips_exactly_four_fields [("workoutId", "1"), ("ownerId", "2"), ("steps", "x")]
      "steps").2.1 (by decide) (by decide) (by decide) (by decide)⟩

/-- Claim C7: at share time, an active (`pending`/`imported`) share for the
(workout, athlete) pair makes the item be rejected with the conflict error
and creates no record; when every prior share for the pair is inactive
(`removed`/`failed`), a new share is created with status `pending`. -/
theorem c7_at_most_one_active_share (workouts : List WorkoutRec)
    (shares : List SharedWorkoutRec) (coachId athleteId freshId : Nat)
    (gwId : String) (w : WorkoutRec)
    (hw : workouts.find? (fun x => x.garmin_workout_id == gwId && x.coach_id == coachId) = some w) :
    ((∃ s ∈ shares, s.workout_id = w.id ∧ s.athlete_id = athleteId ∧
        (s.status = "pending" ∨ s.status = "imported")) →
      shareOneWorkout workouts shares coachId athleteId gwId freshId =
        (shares, some ("Workout \x27" ++ w.workout_name ++ "\x27 already shared with this athlete"))) ∧
    ((∀ s ∈ shares, s.workout_id = w.id → s.athlete_id = athleteId →
        s.status ≠ "pending" ∧ s.status ≠ "imported") →
      shareOneWorkout workouts shares coachId athleteId gwId freshId =
        (shares ++ [newSharedRec freshId coachId athleteId w], none) ∧
      (newSharedRec freshId coachId athleteId w).status = "pending") := by
  constructor
  · rintro ⟨s, hmem, h1, h2, h3⟩
    cases hfind : shares.find? (fun s => s.workout_id == w.id && s.athlete_id == athleteId &&
        (s.status == "pending" || s.status == "imported")) with
    | none =>
      exfalso
      have := List.find?_eq_none.mp hfind s hmem
      apply this
      simp only [Bool.and_eq_true, Bool.or_eq_true, beq_iff_eq]
      exact ⟨⟨h1, h2⟩, h3⟩
    | some t =>
      unfold shareOneWorkout
      rw [hw]
      simp only [hfind]
  · intro hall
    have hfind : shares.find? (fun s => s.workout_id == w.id && s.athlete_id == athleteId &&
        (s.status == "pending" || s.status == "imported")) = none := by
      rw [List.find?_eq_none]
      intro s hs hp
      simp only [Bool.and_eq_true, Bool.or_eq_true, beq_iff_eq] at hp
      obtain ⟨⟨h1, h2⟩, h3⟩ := hp
      obtain ⟨hnp, hni⟩ := hall s hs h1 h2
      cases h3 with
      | inl h => exact hnp h
      | inr h => exact hni h
    unfold shareOneWorkout
    rw [hw]
    simp only [hfind]
    exact ⟨trivial, rfl⟩

/-- Claim C7 witness: the prior share for the pair is `removed`, so
re-sharing succeeds and creates a fresh `pending` share. -/
theorem c7_at_most_one_active_share_witness :
    shareOneWorkout [⟨5, "g5", 10, "Tempo", "d5"⟩]
      [⟨1, 10, 20, 5, "removed", none, none, none, "Tempo", "d5"⟩] 10 20 "g5" 2 =
      ([⟨1, 10, 20, 5, "removed", none, none, none, "Tempo", "d5"⟩,
        newSharedRec 2 10 20 ⟨5, "g5", 10, "Tempo", "d5"⟩], none) ∧
    (newSharedRec 2 10 20 ⟨5, "g5", 10, "Tempo", "d5"⟩).status = "pending" :=
  (c7_at_most_one_active_share [⟨5, "g5", 10, "Tempo", "d5"⟩]
    [⟨1, 10, 20, 5, "removed", none, none, none, "Tempo", "d5"⟩] 10 20 2 "g5"
    ⟨5, "g5", 10, "Tempo", "d5"⟩ rfl).2 (by decide)

/-- Claim C8: credential encryption round-trips — both `encrypt_value` and
`decrypt_value` derive the same key deterministically from the configured
secret, so decrypting an encryption returns the plaintext; moreover the
derived raw key is always truncated/padded to exactly the cipher's 32-byte
key length. -/
theorem c8_encrypt_decrypt_roundtrip (c : FernetCipher) (settingsKey P : String) :
    decrypt_value c settingsKey (encrypt_value c settingsKey P) = some P ∧
    (padKey32 (utf8Encode settingsKey)).length = 32 := by
  refine ⟨c.roundtrip _ _, ?_⟩
  unfold padKey32
  simp only [List.length_append, List.length_replicate, List.length_take]
  omega

theorem find?_map_update (l : List GarminCredRec) (uid : Nat) (nr : GarminCredRec)
    (hnr : (nr.user_id == uid) = true) (x : GarminCredRec)
    (hl : l.find? (fun r => r.user_id == uid) = some x) :
    (l.map (fun r => if r.user_id == uid then nr else r)).find?
      (fun r => r.user_id == uid) = some nr := by
  induction l with
  | nil => simp at hl
  | cons a tl ih =>
    cases hpa : (a.user_id == uid) with
    | true =>
      have ha : (if (a.user_id == uid : Bool) then nr else a) = nr := by simp [hpa]
      simp only [List.map_cons]
      rw [ha, List.find?_cons_of_pos (p := fun r : GarminCredRec => r.user_id == uid) _ hnr]
    | false =>
      have ha : (if (a.user_id == uid : Bool) then nr else a) = a := by simp [hpa]
      rw [List.find?_cons_of_neg _ (by simp [hpa])] at hl
      simp only [List.map_cons]
      rw [ha, List.find?_cons_of_neg _ (by simp [hpa])]
      exact ih hl

theorem find?_upsertCred (store : List GarminCredRec) (uid : Nat)
    (nr : GarminCredRec) (hnr : nr.user_id = uid) :
    (upsertCred store uid nr).find? (fun r => r.user_id == uid) = some nr := by
  have hb : (nr.user_id == uid) = true := by simp [hnr]
  unfold upsertCred
  cases hfind : store.find? (fun r => r.user_id == uid) with
  | none =>
    rw [List.find?_append, hfind,
      List.find?_cons_of_pos (p := fun r : GarminCredRec => r.user_id == uid) _ hb]
    rfl
  | some x => exact find?_map_update store uid nr hb x hfind

/-- Claim C10: when connectivity verification fails, the connect endpoint
still replaces (or creates) the stored credential row — new ciphertexts,
`is_connected = false`, `connection_error` holding the failure message,
`last_sync` cleared — and only then reports the failure; the previously
stored row is not preserved. -/
theorem c10_connect_failure_still_replaces (c : FernetCipher) (settingsKey : String)
    (test : String → String → Bool × String) (now userId : Nat)
    (store : List GarminCredRec) (email password msg : String)
    (htest : test (encrypt_value c settingsKey email) (encrypt_value c settingsKey password)
      = (false, msg)) :
    (connect_garmin_account c settingsKey test now userId store email password).2
      = .error msg ∧
    (connect_garmin_account c settingsKey test now userId store email password).1.find?
        (fun r => r.user_id == userId) =
      some { user_id := userId
             garmin_email_encrypted := encrypt_value c settingsKey email
             garmin_password_encrypted := encrypt_value c settingsKey password
             is_connected := false
             connection_error := some msg
             last_sync := none } := by
  unfold connect_garmin_account
  simp only [htest]
  exact ⟨rfl, find?_upsertCred store userId _ rfl⟩

/-- Claim C10 witness: a previously connected row for user 20 is replaced
by the failed-verification row, and the caller gets the error. -/
theorem c10_connect_failure_still_replaces_witness :
    (connect_garmin_account demoCipher "secret" (fun _ _ => (false, "bad creds")) 9 20
      [⟨20, "old-ee", "old-ep", true, none, some 5⟩] "mail" "pw").2 = .error "bad creds" ∧
    (connect_garmin_account demoCipher "secret" (fun _ _ => (false, "bad creds")) 9 20
      [⟨20, "old-ee", "old-ep", true, none, some 5⟩] "mail" "pw").1.find?
        (fun r => r.user_id == 20) =
      some ⟨20, encrypt_value demoCipher "secret" "mail",
        encrypt_value demoCipher "secret" "pw", false, some "bad creds", none⟩ :=
  c10_connect_failure_still_replaces demoCipher "secret" (fun _ _ => (false, "bad creds")) 9 20
    [⟨20, "old-ee", "old-ep", true, none, some 5⟩] "mail" "pw" "bad creds" rfl
